import Mathlib

/-!
Verification of the Virt Manager VM-instance registry
(`virtmanager/src/aidl.rs`) against its specification.

The Rust source is shallowly embedded: machine integers become `Nat` with
explicit bounds where overflow matters, fallible calls return `Except`,
the `Mutex<State>`-guarded object becomes explicit state passing
(operations take a `State` and return a result together with the new
`State`), and the Binder calling context (`ThreadState::get_calling_uid`)
becomes an explicit `uid` argument.
-/

namespace VirtManager

/-- Embeds `u32::MAX + 1`, the size of the representable range of `u32`. -/
def U32_LIMIT : Nat := 2 ^ 32

/-- Modelled from the spec: the repository defines `pub type Cid = u32` outside
the visible source (`aidl.rs` imports it via `use crate::{Cid, FIRST_GUEST_CID}`).
The spec calls it a numeric identity; the visible code casts it with `as i32`,
so it is a 32-bit unsigned integer, embedded as `Nat` with overflow made
explicit through `checked_add`. -/
abbrev Cid := Nat

/-- Embeds `u32::checked_add` specialised to a `Cid`: `some` of the sum when it fits
in 32 bits, `none` on overflow (the counter is never silently wrapped). -/
def Cid.checked_add (c : Cid) (n : Nat) : Option Cid :=
  if c + n < U32_LIMIT then some (c + n) else none

/-- Modelled from the spec: `FIRST_GUEST_CID` is defined outside the visible
source; the spec says only that it is "a fixed constant distinct from any
sentinel/reserved value" ("reserved low values are not assignable to guest
VMs"). Its concrete value is irrelevant to every claim proved below. -/
def FIRST_GUEST_CID : Cid := 10

/-- The Binder status codes that the visible code actually constructs
(`StatusCode::PERMISSION_DENIED`, `StatusCode::BAD_VALUE`,
`StatusCode::UNKNOWN_ERROR`). -/
inductive StatusCode where
  | PERMISSION_DENIED
  | BAD_VALUE
  | UNKNOWN_ERROR
deriving DecidableEq, Repr

/-- Modelled from the spec: `VmConfig` is produced by the external
configuration loader (`crate::config`, not part of this core); it is an
opaque validated in-memory structure. -/
structure VmConfig where
  raw : String
deriving DecidableEq, Repr

/-- Modelled from the spec: `VmInstance` (`crate::crosvm`, not part of this
core) is an opaque externally-constructed handle "tagged with its identity and
the path/name of the configuration that produced it"; the visible code reads
exactly the fields `cid` and `config_path`. -/
structure VmInstance where
  cid : Cid
  config_path : String
deriving DecidableEq, Repr

/-- A `Weak<VmInstance>` entry of the tracker: the referenced instance
together with whether it is still alive (its strong count is positive).
`upgrade`/`strong_count` inspect this aliveness flag. -/
structure WeakRef where
  target : VmInstance
  alive : Bool
deriving DecidableEq, Repr

/-- Embeds `Weak::upgrade`: promotes the non-owning reference to an owning one,
`none` when the instance has already been destroyed. -/
def WeakRef.upgrade (w : WeakRef) : Option VmInstance :=
  if w.alive then some w.target else none

/-- Embeds `vm.strong_count() > 0`, the retention test used by `State::add_vm`. -/
def WeakRef.strong_count_pos (w : WeakRef) : Bool :=
  w.alive

/-- The `VirtualMachine` Binder object: a handle wrapping an owning
(`Arc`/`Strong`) reference to a `VmInstance`. -/
structure VirtualMachine where
  inst : VmInstance
deriving DecidableEq, Repr

/-- The `u32 as i32` cast used by `getCid` and `debugListVms`. -/
def toI32 (c : Nat) : Int :=
  if c % U32_LIMIT < 2 ^ 31 then (c % U32_LIMIT : Int)
  else (c % U32_LIMIT : Int) - (U32_LIMIT : Int)

/-- Embeds `IVirtualMachine::getCid`: `Ok(self.instance.cid as i32)`. -/
def VirtualMachine.getCid (v : VirtualMachine) : Except StatusCode Int :=
  .ok (toI32 v.inst.cid)

/-- Embeds `VirtualMachineDebugInfo`, the projection returned by `debugListVms`. -/
structure VirtualMachineDebugInfo where
  cid : Int
  configPath : String
deriving DecidableEq, Repr

/-- Embeds `DEBUG_ALLOWED_UIDS: [u32; 2] = [0, 2000]`. -/
def DEBUG_ALLOWED_UIDS : List Nat := [0, 2000]

/-- Embeds `debug_access_allowed`: membership of the calling UID in the fixed
allow-list. The ambient `ThreadState::get_calling_uid()` is passed
explicitly. -/
def debug_access_allowed (uid : Nat) : Bool :=
  DEBUG_ALLOWED_UIDS.contains uid

/-- The mutable state of the Virt Manager (`struct State`). -/
structure State where
  /-- The next available unused CID. -/
  next_cid : Cid
  /-- Weak references to the VMs which have been started. -/
  vms : List WeakRef
  /-- Strong VM references held for debugging purposes. -/
  debug_held_vms : List VirtualMachine
deriving DecidableEq, Repr

/-- Embeds `impl Default for State`. -/
def State.default : State :=
  { next_cid := FIRST_GUEST_CID, vms := [], debug_held_vms := [] }

/-- Embeds `State::vms()` (named `vmsAlive` here because Lean reserves `State.vms`
for the field projection): upgrades every weak pointer, silently dropping the
dead ones (`filter_map(Weak::upgrade)`). -/
def State.vmsAlive (s : State) : List VmInstance :=
  s.vms.filterMap WeakRef.upgrade

/-- Embeds `State::add_vm`: garbage-collect entries whose strong count is zero,
then push the new weak reference. -/
def State.add_vm (s : State) (vm : WeakRef) : State :=
  { s with vms := s.vms.filter WeakRef.strong_count_pos ++ [vm] }

/-- Embeds `State::debug_hold_vm`: `Vec::push` of the strong reference. -/
def State.debug_hold_vm (s : State) (vm : VirtualMachine) : State :=
  { s with debug_held_vms := s.debug_held_vms ++ [vm] }

/-- Embeds `Vec::swap_remove(i)`: removes the element at `i` by replacing it with
the last element and popping. -/
def swapRemove (l : List VirtualMachine) (i : Nat) : List VirtualMachine :=
  match l.getLast? with
  | none => l
  | some last => (l.set i last).dropLast

/-- The matcher `|vm| vm.getCid() == Ok(cid)` of `State::debug_drop_vm`. -/
def cidMatches (cid : Int) (vm : VirtualMachine) : Bool :=
  match vm.getCid with
  | .ok c => c == cid
  | .error _ => false

/-- Embeds `State::debug_drop_vm`: find the first held reference whose `getCid`
equals `Ok(cid)`; if none, return `None` with the state unchanged; otherwise
`swap_remove` it and return it. -/
def State.debug_drop_vm (s : State) (cid : Int) :
    Option VirtualMachine × State :=
  match s.debug_held_vms.findIdx? (cidMatches cid) with
  | none => (none, s)
  | some pos =>
      (s.debug_held_vms[pos]?,
       { s with debug_held_vms := swapRemove s.debug_held_vms pos })

deriving instance DecidableEq for Except

/-- The outcomes of the external collaborators consulted during one
`startVm` call: whether a log sink was supplied, whether
`File::try_clone` on it succeeds, the result of `VmConfig::load`
(error payload = the loader's raw error), and the result of
`VmInstance::start` (error payload = the launcher's raw error).
These are inputs to the embedded operation because the collaborators are
external to this core. -/
structure CallEnv where
  log_fd_present : Bool
  try_clone_ok : Bool
  load_config : Except String VmConfig
  launch : Except String Unit
deriving DecidableEq, Repr

/-- The log-sink duplication step of `startVm`:
`log_fd.map(|fd| fd.as_ref().try_clone().map_err(|_| StatusCode::UNKNOWN_ERROR)).transpose()?`. -/
def dup_log_fd (e : CallEnv) : Except StatusCode (Option Unit) :=
  if e.log_fd_present then
    if e.try_clone_ok then .ok (some ()) else .error .UNKNOWN_ERROR
  else .ok none

/-- Embeds `fn start_vm` (free function): load the config — failure is logged and
mapped to `BAD_VALUE` — then launch the instance — failure is logged and
mapped to `UNKNOWN_ERROR`. On success the instance carries the given `cid`
and `config_path`. -/
def start_vm (e : CallEnv) (config_path : String) (cid : Cid) :
    Except StatusCode VmInstance :=
  match e.load_config with
  | .error _ => .error .BAD_VALUE
  | .ok _config =>
      match e.launch with
      | .error _ => .error .UNKNOWN_ERROR
      | .ok _ => .ok { cid := cid, config_path := config_path }

/-- Embeds `IVirtManager::startVm`: read `next_cid`, duplicate the log sink,
call `start_vm`, advance the counter with `checked_add` (overflow fails the
call with `UNKNOWN_ERROR`), register a weak reference (the fresh `Arc` has a
positive strong count), and return the instance to be wrapped in a handle.
The Rust local `let cid = state.next_cid;` is inlined as `s.next_cid`, which
is sound because the state is not mutated before its uses. -/
def startVm (e : CallEnv) (config_path : String) (s : State) :
    Except StatusCode VmInstance × State :=
  match dup_log_fd e with
  | .error err => (.error err, s)
  | .ok _log_fd =>
      match start_vm e config_path s.next_cid with
      | .error err => (.error err, s)
      | .ok inst =>
          match s.next_cid.checked_add 1 with
          | none => (.error .UNKNOWN_ERROR, s)
          | some next =>
              (.ok inst,
               State.add_vm { s with next_cid := next }
                 { target := inst, alive := true })

/-- Embeds `IVirtManager::debugListVms`: gate check first, then project the alive
instances to `(cid as i32, config_path)`. -/
def debugListVms (uid : Nat) (s : State) :
    Except StatusCode (List VirtualMachineDebugInfo) × State :=
  if !debug_access_allowed uid then (.error .PERMISSION_DENIED, s)
  else
    (.ok (s.vmsAlive.map fun vm =>
        { cid := toI32 vm.cid, configPath := vm.config_path }), s)

/-- Embeds `IVirtManager::debugHoldVmRef`: gate check first, then store the strong
reference. (The `FromIBinder::try_from(vmref.as_binder()).unwrap()`
workaround re-obtains a `Strong` of the very interface the typed argument
already has, so it is the identity here.) -/
def debugHoldVmRef (uid : Nat) (vm : VirtualMachine) (s : State) :
    Except StatusCode Unit × State :=
  if !debug_access_allowed uid then (.error .PERMISSION_DENIED, s)
  else (.ok (), s.debug_hold_vm vm)

/-- Embeds `IVirtManager::debugDropVmRef`: gate check first, then
`Ok(state.debug_drop_vm(cid))`. -/
def debugDropVmRef (uid : Nat) (cid : Int) (s : State) :
    Except StatusCode (Option VirtualMachine) × State :=
  if !debug_access_allowed uid then (.error .PERMISSION_DENIED, s)
  else
    let r := s.debug_drop_vm cid
    (.ok r.1, r.2)

/-- A sequence of `startVm` calls, each with its own external-collaborator
outcomes and config path, threaded through the state. -/
def runStartVms (calls : List (CallEnv × String)) (s : State) :
    List (Except StatusCode VmInstance) × State :=
  match calls with
  | [] => ([], s)
  | c :: rest =>
      let r := startVm c.1 c.2 s
      let rs := runStartVms rest r.2
      (r.1 :: rs.1, rs.2)

/-- The CID of the `i`-th result of a run, when that result is a success. -/
def cidAt (rs : List (Except StatusCode VmInstance)) (i : Nat) : Option Cid :=
  match rs[i]? with
  | some (.ok v) => some v.cid
  | _ => none

/-! ### Concrete external-collaborator outcomes used in witnesses -/

/-- An all-successful call environment: a log sink is supplied and duplicates
fine, the configuration loads, the launcher succeeds. -/
def envOk : CallEnv :=
  { log_fd_present := true, try_clone_ok := true,
    load_config := .ok ⟨"cfg"⟩, launch := .ok () }

/-- A call environment whose configuration loader rejects the config. -/
def envLoadFail : CallEnv :=
  { log_fd_present := false, try_clone_ok := true,
    load_config := .error "unparseable", launch := .ok () }

/-- A call environment whose launcher fails. -/
def envLaunchFail : CallEnv :=
  { log_fd_present := false, try_clone_ok := true,
    load_config := .ok ⟨"cfg"⟩, launch := .error "crosvm died" }

/-- A call environment whose log-sink descriptor duplication fails. -/
def envDupFail : CallEnv :=
  { log_fd_present := true, try_clone_ok := false,
    load_config := .ok ⟨"cfg"⟩, launch := .ok () }

/-- A registry state whose identity counter sits at `u32::MAX`, so that
advancing it would leave the representable range. -/
def overflowState : State :=
  { next_cid := U32_LIMIT - 1, vms := [], debug_held_vms := [] }

/-! ### Shared helper lemmas about `startVm` -/

/-- Successful `start_vm` returns exactly the instance tagged with the given
CID and config path. -/
theorem start_vm_ok_shape (e : CallEnv) (p : String) (cid : Cid)
    (inst : VmInstance) (h : start_vm e p cid = .ok inst) :
    inst = ⟨cid, p⟩ := by
  unfold start_vm at h
  cases hl : e.load_config <;> rw [hl] at h
  · simp at h
  · cases hv : e.launch <;> rw [hv] at h
    · simp at h
    · exact (Except.ok.inj h).symm

/-- Successful `checked_add 1` means the counter stayed in range and advanced
by exactly one. -/
theorem checked_add_one_some (c : Cid) (n : Cid)
    (h : c.checked_add 1 = some n) : n = c + 1 ∧ c + 1 < U32_LIMIT := by
  unfold Cid.checked_add at h
  by_cases hlt : c + 1 < U32_LIMIT
  · rw [if_pos hlt] at h
    exact ⟨(Option.some.inj h).symm, hlt⟩
  · rw [if_neg hlt] at h
    simp at h

/-- Case analysis of one `startVm` call: it either fails with the state left
untouched, or returns the instance `⟨next_cid, path⟩`, advances the counter by
one and registers a fresh (alive) weak reference after the opportunistic GC of
`add_vm`. -/
theorem startVm_cases (e : CallEnv) (p : String) (s : State) :
    (∃ err, startVm e p s = (.error err, s)) ∨
    (s.next_cid + 1 < U32_LIMIT ∧
      startVm e p s =
        (.ok ⟨s.next_cid, p⟩,
         { next_cid := s.next_cid + 1,
           vms := s.vms.filter WeakRef.strong_count_pos ++
             [⟨⟨s.next_cid, p⟩, true⟩],
           debug_held_vms := s.debug_held_vms })) := by
  unfold startVm
  cases hd : dup_log_fd e with
  | error err => exact Or.inl ⟨err, rfl⟩
  | ok lf =>
    cases hs : start_vm e p s.next_cid with
    | error err => exact Or.inl ⟨err, rfl⟩
    | ok inst =>
      have hinst : inst = ⟨s.next_cid, p⟩ := start_vm_ok_shape e p _ inst hs
      subst hinst
      cases hc : Cid.checked_add s.next_cid 1 with
      | none => exact Or.inl ⟨.UNKNOWN_ERROR, rfl⟩
      | some next =>
        obtain ⟨hnext, hlt⟩ := checked_add_one_some _ _ hc
        subst hnext
        exact Or.inr ⟨hlt, rfl⟩

/-- Every error surfaced by `startVm` is one of the two coarse codes the
visible code constructs on its failure paths. -/
theorem startVm_error_codes (e : CallEnv) (p : String) (s : State)
    (err : StatusCode) (h : (startVm e p s).1 = .error err) :
    err = .BAD_VALUE ∨ err = .UNKNOWN_ERROR := by
  unfold startVm dup_log_fd start_vm at h
  by_cases h1 : e.log_fd_present <;> by_cases h2 : e.try_clone_ok <;>
    cases hl : e.load_config <;> cases hv : e.launch <;>
      cases hc : Cid.checked_add s.next_cid 1 <;>
        simp [h1, h2, hl, hv, hc] at h <;> simp [h]

/-- C10: `startVm` is atomic with respect to errors — whenever it returns an
error (log-sink duplication failure, configuration-load failure, launch
failure, or counter overflow), the entire registry state is returned
unchanged: the counter is not advanced and neither tracker collection is
modified. -/
theorem C10_startVm_error_atomicity (e : CallEnv) (p : String) (s : State)
    (err : StatusCode) (h : (startVm e p s).1 = .error err) :
    (startVm e p s).2 = s := by
  rcases startVm_cases e p s with ⟨err2, heq⟩ | ⟨hlt, heq⟩
  · rw [heq]
  · rw [heq] at h
    simp at h

/-- Witness for C10 at a concrete failing input: a rejected configuration
leaves the fresh state untouched. -/
theorem C10_witness :
    (startVm envLoadFail "a" State.default).1 = .error .BAD_VALUE ∧
    (startVm envLoadFail "a" State.default).2 = State.default := by
  refine ⟨by decide, ?_⟩
  exact C10_startVm_error_atomicity envLoadFail "a" State.default
    .BAD_VALUE (by decide)

/-- C9: no registry operation is fatal — on every input and every state each
of `startVm`, `debugListVms`, `debugHoldVmRef`, `debugDropVmRef` and `getCid`
returns either a success or an error scoped to that single call (the error
leaves the shared state unchanged), and `getCid` always succeeds. -/
theorem C9_operations_total_and_call_scoped (e : CallEnv) (p : String)
    (uid : Nat) (vm : VirtualMachine) (c : Int) (s : State)
    (v : VirtualMachine) :
    ((∃ i, (startVm e p s).1 = .ok i) ∨
      (∃ err, (startVm e p s).1 = .error err ∧ (startVm e p s).2 = s)) ∧
    ((∃ l, (debugListVms uid s).1 = .ok l) ∨
      ((debugListVms uid s).1 = .error .PERMISSION_DENIED ∧
        (debugListVms uid s).2 = s)) ∧
    ((debugHoldVmRef uid vm s).1 = .ok () ∨
      ((debugHoldVmRef uid vm s).1 = .error .PERMISSION_DENIED ∧
        (debugHoldVmRef uid vm s).2 = s)) ∧
    ((∃ r, (debugDropVmRef uid c s).1 = .ok r) ∨
      ((debugDropVmRef uid c s).1 = .error .PERMISSION_DENIED ∧
        (debugDropVmRef uid c s).2 = s)) ∧
    (∃ n, v.getCid = .ok n) := by
  refine ⟨?_, ?_, ?_, ?_, ⟨toI32 v.inst.cid, rfl⟩⟩
  · rcases startVm_cases e p s with ⟨err, heq⟩ | ⟨hlt, heq⟩
    · exact Or.inr ⟨err, by rw [heq], by rw [heq]⟩
    · exact Or.inl ⟨_, by rw [heq]⟩
  · by_cases hg : debug_access_allowed uid <;>
      simp [debugListVms, hg]
  · by_cases hg : debug_access_allowed uid <;>
      simp [debugHoldVmRef, hg]
  · by_cases hg : debug_access_allowed uid <;>
      simp [debugDropVmRef, hg]

/-- C8: the coarse error-code mapping of `startVm` — a configuration-loader
failure yields `BAD_VALUE` (the code surfaced as `INVALID_ARGUMENT`), a
launcher failure yields `UNKNOWN_ERROR` (surfaced as `INTERNAL`), a log-sink
duplication failure yields `UNKNOWN_ERROR`, and every error `startVm` ever
returns is one of these two fixed codes, independent of the raw collaborator
error payload (the statement quantifies over the payloads carried by
`CallEnv`, none of which reach the caller). -/
theorem C8_error_code_mapping (e : CallEnv) (p : String) (s : State) :
    ((∃ m, e.load_config = .error m) → (∃ x, dup_log_fd e = .ok x) →
      (startVm e p s).1 = .error .BAD_VALUE) ∧
    ((∃ cf, e.load_config = .ok cf) → (∃ m, e.launch = .error m) →
      (∃ x, dup_log_fd e = .ok x) →
      (startVm e p s).1 = .error .UNKNOWN_ERROR) ∧
    (e.log_fd_present = true → e.try_clone_ok = false →
      (startVm e p s).1 = .error .UNKNOWN_ERROR) ∧
    (∀ err, (startVm e p s).1 = .error err →
      err = .BAD_VALUE ∨ err = .UNKNOWN_ERROR) := by
  refine ⟨?_, ?_, ?_, fun err h => startVm_error_codes e p s err h⟩
  · rintro ⟨m, hm⟩ ⟨x, hx⟩
    simp [startVm, start_vm, hx, hm]
  · rintro ⟨cf, hcf⟩ ⟨m, hm⟩ ⟨x, hx⟩
    simp [startVm, start_vm, hx, hcf, hm]
  · intro h1 h2
    simp [startVm, dup_log_fd, h1, h2]

/-- Witness for C8 at concrete failing inputs: the three failure kinds produce
exactly the mapped codes. -/
theorem C8_witness :
    (startVm envLoadFail "a" State.default).1 = .error .BAD_VALUE ∧
    (startVm envLaunchFail "a" State.default).1 = .error .UNKNOWN_ERROR ∧
    (startVm envDupFail "a" State.default).1 = .error .UNKNOWN_ERROR := by
  refine ⟨?_, ?_, ?_⟩
  · exact (C8_error_code_mapping envLoadFail "a" State.default).1
      ⟨"unparseable", rfl⟩ ⟨none, rfl⟩
  · exact (C8_error_code_mapping envLaunchFail "a" State.default).2.1
      ⟨⟨"cfg"⟩, rfl⟩ ⟨"crosvm died", rfl⟩ ⟨none, rfl⟩
  · exact (C8_error_code_mapping envDupFail "a" State.default).2.2.1 rfl rfl

/-- C4: each debug operation returns `PERMISSION_DENIED` with the registry
state untouched exactly when the calling UID is outside the fixed allow-list
`[0, 2000]`; for an allow-listed caller each operation proceeds (returns a
success and performs its state transition). -/
theorem C4_debug_gate (uid : Nat) (s : State) (vm : VirtualMachine)
    (c : Int) :
    (debug_access_allowed uid = true ↔ (uid = 0 ∨ uid = 2000)) ∧
    (¬ (uid = 0 ∨ uid = 2000) →
      debugListVms uid s = (.error .PERMISSION_DENIED, s) ∧
      debugHoldVmRef uid vm s = (.error .PERMISSION_DENIED, s) ∧
      debugDropVmRef uid c s = (.error .PERMISSION_DENIED, s)) ∧
    ((uid = 0 ∨ uid = 2000) →
      (∃ l, debugListVms uid s = (.ok l, s)) ∧
      debugHoldVmRef uid vm s = (.ok (), s.debug_hold_vm vm) ∧
      debugDropVmRef uid c s =
        (.ok (s.debug_drop_vm c).1, (s.debug_drop_vm c).2)) := by
  have hiff : debug_access_allowed uid = true ↔ (uid = 0 ∨ uid = 2000) := by
    simp [debug_access_allowed, DEBUG_ALLOWED_UIDS]
  refine ⟨hiff, ?_, ?_⟩
  · intro hno
    have hg : debug_access_allowed uid = false := by
      cases hb : debug_access_allowed uid
      · rfl
      · exact absurd (hiff.mp hb) hno
    exact ⟨by simp [debugListVms, hg], by simp [debugHoldVmRef, hg],
      by simp [debugDropVmRef, hg]⟩
  · intro hyes
    have hg : debug_access_allowed uid = true := hiff.mpr hyes
    refine ⟨⟨s.vmsAlive.map fun vm => ⟨toI32 vm.cid, vm.config_path⟩, ?_⟩,
      by simp [debugHoldVmRef, hg], by simp [debugDropVmRef, hg]⟩
    simp [debugListVms, hg]

/-- Witness for C4 at concrete callers: UID 1234 is denied on all three
operations with the state untouched, and shell UID 2000 succeeds. -/
theorem C4_witness :
    debugListVms 1234 State.default =
      (.error .PERMISSION_DENIED, State.default) ∧
    debugHoldVmRef 2000 ⟨⟨10, "a"⟩⟩ State.default =
      (.ok (), State.default.debug_hold_vm ⟨⟨10, "a"⟩⟩) := by
  refine ⟨?_, ?_⟩
  · exact ((C4_debug_gate 1234 State.default ⟨⟨10, "a"⟩⟩ 0).2.1
      (by decide)).1
  · exact ((C4_debug_gate 2000 State.default ⟨⟨10, "a"⟩⟩ 0).2.2
      (Or.inr rfl)).2.1

/-! ### Sequential runs of `startVm` (claims C1-C3) -/

/-- A run produces one result per call. -/
theorem runStartVms_length (calls : List (CallEnv × String)) (s : State) :
    (runStartVms calls s).1.length = calls.length := by
  induction calls generalizing s with
  | nil => rfl
  | cons c rest ih => simp [runStartVms, ih]

/-- When every call of a run succeeds, the `i`-th call is assigned exactly
`next_cid + i` of the starting state. -/
theorem runStartVms_cids (calls : List (CallEnv × String)) (s : State)
    (h : ∀ r ∈ (runStartVms calls s).1, r.isOk = true) :
    ∀ i, i < calls.length →
      cidAt (runStartVms calls s).1 i = some (s.next_cid + i) := by
  induction calls generalizing s with
  | nil => intro i hi; exact absurd hi (by simp)
  | cons c rest ih =>
    have hrun : runStartVms (c :: rest) s =
        ((startVm c.1 c.2 s).1 ::
          (runStartVms rest (startVm c.1 c.2 s).2).1,
         (runStartVms rest (startVm c.1 c.2 s).2).2) := rfl
    have hhead : (startVm c.1 c.2 s).1.isOk = true := by
      apply h
      rw [hrun]
      exact List.mem_cons_self _ _
    rcases startVm_cases c.1 c.2 s with ⟨err, heq⟩ | ⟨hlt, heq⟩
    · rw [heq] at hhead
      simp [Except.isOk, Except.toBool] at hhead
    · have htail : ∀ r ∈ (runStartVms rest (startVm c.1 c.2 s).2).1,
          r.isOk = true := by
        intro r hr
        apply h
        rw [hrun]
        exact List.mem_cons_of_mem _ hr
      intro i hi
      cases i with
      | zero =>
          rw [hrun]
          simp [cidAt, heq]
      | succ n =>
          have hn : n < rest.length := by
            simpa [Nat.succ_lt_succ_iff] using hi
          have hrest := ih (startVm c.1 c.2 s).2 htail n hn
          have hnext : ((startVm c.1 c.2 s).2).next_cid = s.next_cid + 1 := by
            rw [heq]
          rw [hnext] at hrest
          rw [hrun]
          have hcons : cidAt ((startVm c.1 c.2 s).1 ::
              (runStartVms rest (startVm c.1 c.2 s).2).1) (n + 1) =
              cidAt (runStartVms rest (startVm c.1 c.2 s).2).1 n := by
            simp [cidAt]
          rw [hcons, hrest, Nat.add_assoc, Nat.add_comm 1 n]

/-- C1: over any sequence of `startVm` calls from the freshly-initialised
state in which every call succeeds, the assigned CIDs are exactly
`FIRST_GUEST_CID + i` in call order — hence pairwise distinct and strictly
increasing, with the first equal to `FIRST_GUEST_CID`. -/
theorem C1_sequential_cids (calls : List (CallEnv × String))
    (h : ∀ r ∈ (runStartVms calls State.default).1, r.isOk = true) :
    (∀ i, i < calls.length →
      cidAt (runStartVms calls State.default).1 i =
        some (FIRST_GUEST_CID + i)) ∧
    (∀ i j, i < j → j < calls.length → ∀ (ci cj : Nat),
      cidAt (runStartVms calls State.default).1 i = some ci →
      cidAt (runStartVms calls State.default).1 j = some cj → ci < cj) ∧
    (∀ i j, i < calls.length → j < calls.length → i ≠ j → ∀ (ci cj : Nat),
      cidAt (runStartVms calls State.default).1 i = some ci →
      cidAt (runStartVms calls State.default).1 j = some cj → ci ≠ cj) ∧
    (0 < calls.length →
      cidAt (runStartVms calls State.default).1 0 = some FIRST_GUEST_CID) := by
  have hmain := runStartVms_cids calls State.default h
  have hF : State.default.next_cid = FIRST_GUEST_CID := rfl
  rw [hF] at hmain
  refine ⟨hmain, ?_, ?_, ?_⟩
  · intro i j hij hj ci cj hci hcj
    have h1 := hmain i (Nat.lt_trans hij hj)
    have h2 := hmain j hj
    rw [hci] at h1
    rw [hcj] at h2
    have e1 : ci = FIRST_GUEST_CID + i := Option.some.inj h1
    have e2 : cj = FIRST_GUEST_CID + j := Option.some.inj h2
    omega
  · intro i j hi hj hne ci cj hci hcj
    have h1 := hmain i hi
    have h2 := hmain j hj
    rw [hci] at h1
    rw [hcj] at h2
    have e1 : ci = FIRST_GUEST_CID + i := Option.some.inj h1
    have e2 : cj = FIRST_GUEST_CID + j := Option.some.inj h2
    omega
  · intro h0
    have := hmain 0 h0
    simpa using this

/-- Witness for C1 on a concrete two-call run: both calls succeed and are
assigned `FIRST_GUEST_CID` and `FIRST_GUEST_CID + 1`. -/
theorem C1_witness :
    cidAt (runStartVms [(envOk, "a"), (envOk, "b")] State.default).1 0 =
      some FIRST_GUEST_CID ∧
    cidAt (runStartVms [(envOk, "a"), (envOk, "b")] State.default).1 1 =
      some (FIRST_GUEST_CID + 1) := by
  have h := C1_sequential_cids [(envOk, "a"), (envOk, "b")] (by decide)
  exact ⟨h.2.2.2 (by decide), h.1 1 (by decide)⟩

/-- C2 counterexample: the claim says a failed `startVm` permanently consumes
the identity it read, every later success being assigned a strictly greater
one.  On the code the counter is only advanced after a successful launch, so
the very next successful call is assigned the same CID the failed attempt
read: from the fresh state a rejected-configuration call fails with
`BAD_VALUE`, and the following successful call is assigned
`FIRST_GUEST_CID` itself — not a value strictly greater than it. -/
theorem C2_counterexample_failed_cid_reused :
    (startVm envLoadFail "a" State.default).1 = .error .BAD_VALUE ∧
    State.default.next_cid = FIRST_GUEST_CID ∧
    (startVm envOk "b" (startVm envLoadFail "a" State.default).2).1 =
      .ok ⟨FIRST_GUEST_CID, "b"⟩ ∧
    ¬ FIRST_GUEST_CID < FIRST_GUEST_CID := by
  refine ⟨by decide, rfl, by decide, Nat.lt_irrefl _⟩

/-- C2 amended: a `startVm` call that fails in the log-sink-duplication,
configuration-loading, launch or counter-advance step leaves the registry
state (in particular the identity counter) unchanged, and the identity read
by the failed attempt is exactly the one the next successful `startVm` is
assigned — failed attempts leave no gap and their identity is reused. -/
theorem C2_amended_failed_attempt_leaves_no_gap (e : CallEnv) (p : String)
    (s : State) (err : StatusCode)
    (hfail : (startVm e p s).1 = .error err) :
    (startVm e p s).2 = s ∧
    (∀ e2 p2 v, (startVm e2 p2 (startVm e p s).2).1 = .ok v →
      v.cid = s.next_cid) := by
  rcases startVm_cases e p s with ⟨err2, heq⟩ | ⟨hlt, heq⟩
  · refine ⟨by rw [heq], ?_⟩
    intro e2 p2 v hok
    rw [heq] at hok
    rcases startVm_cases e2 p2 s with ⟨err3, heq2⟩ | ⟨hlt2, heq2⟩
    · rw [heq2] at hok
      simp at hok
    · rw [heq2] at hok
      have := Except.ok.inj hok
      rw [← this]
  · rw [heq] at hfail
    simp at hfail

/-- Witness for the amended C2 at a concrete input: after a
rejected-configuration failure the state is unchanged and the next successful
call takes the very CID of the failed attempt. -/
theorem C2_amended_witness :
    (startVm envLoadFail "a" State.default).2 = State.default ∧
    VmInstance.cid ⟨FIRST_GUEST_CID, "b"⟩ = State.default.next_cid := by
  have h := C2_amended_failed_attempt_leaves_no_gap envLoadFail "a"
    State.default .BAD_VALUE (by decide)
  exact ⟨h.1, h.2 envOk "b" ⟨FIRST_GUEST_CID, "b"⟩ (by decide)⟩

/-- C3 counterexample: the claim says counter exhaustion surfaces as a
`RESOURCE_EXHAUSTED` code, which the spec's own error table lists as distinct
from `INTERNAL` (the code of launch and duplication failures, `UNKNOWN_ERROR`
at the Binder level).  On the code the overflow path returns literally the
same `UNKNOWN_ERROR` status that a launcher failure produces, so no distinct
exhaustion code exists: at the `u32::MAX` counter with every collaborator
succeeding, `startVm` fails with `UNKNOWN_ERROR` — the identical code of the
launch-failure call shown alongside. -/
theorem C3_counterexample_overflow_code_not_distinct :
    (startVm envOk "p" overflowState).1 = .error .UNKNOWN_ERROR ∧
    (startVm envLaunchFail "p" State.default).1 = .error .UNKNOWN_ERROR := by
  exact ⟨by decide, by decide⟩

/-- C3 amended: in every state whose counter cannot be advanced
(`checked_add` returns `none`), `startVm` fails, the state — in particular
the counter, which never wraps — is left unchanged, no identity is assigned
(no instance is returned and the tracker is untouched), and when the call
reaches the counter-advance step (log-sink duplication and `start_vm` both
succeed) the surfaced code is `UNKNOWN_ERROR`, the generic code also used for
internal failures, rather than a distinct exhaustion code. -/
theorem C3_amended_overflow_fails_without_wrap (e : CallEnv) (p : String)
    (s : State) (hmax : s.next_cid.checked_add 1 = none) :
    (startVm e p s).2 = s ∧
    (∃ err, (startVm e p s).1 = .error err) ∧
    ((∃ x, dup_log_fd e = .ok x) →
      (∃ i, start_vm e p s.next_cid = .ok i) →
      (startVm e p s).1 = .error .UNKNOWN_ERROR) := by
  rcases startVm_cases e p s with ⟨err, heq⟩ | ⟨hlt, heq⟩
  · refine ⟨by rw [heq], ⟨err, by rw [heq]⟩, ?_⟩
    rintro ⟨x, hx⟩ ⟨i, hi⟩
    simp [startVm, hx, hi, hmax]
  · exfalso
    unfold Cid.checked_add at hmax
    rw [if_pos hlt] at hmax
    cases hmax

/-- Witness for the amended C3 at the concrete `u32::MAX` state with an
all-successful environment. -/
theorem C3_amended_witness :
    (startVm envOk "p" overflowState).2 = overflowState ∧
    (startVm envOk "p" overflowState).1 = .error .UNKNOWN_ERROR := by
  have h := C3_amended_overflow_fails_without_wrap envOk "p" overflowState
    (by decide)
  exact ⟨h.1, h.2.2 ⟨some (), by decide⟩
    ⟨⟨U32_LIMIT - 1, "p"⟩, by decide⟩⟩

/-! ### Liveness tracker (claims C5, C6) -/

/-- Upgrading every weak reference and dropping the failures keeps exactly
the alive entries, projected to their instances. -/
theorem filterMap_upgrade_eq (l : List WeakRef) :
    l.filterMap WeakRef.upgrade =
      (l.filter fun w => w.alive).map WeakRef.target := by
  induction l with
  | nil => rfl
  | cons w l ih =>
      cases hw : w.alive <;>
        simp [List.filterMap_cons, List.filter_cons, WeakRef.upgrade, hw, ih]

/-- C5: the snapshot `State::vms` returns owning references to exactly the
tracked instances that are still alive — already-destroyed entries are
silently excluded with no error — and `debugListVms` (for an allow-listed
caller) projects each surviving instance to exactly its stored identity
(cast to `i32`) and configuration path, leaving the state unchanged. -/
theorem C5_snapshot_returns_alive_instances (s : State) (uid : Nat)
    (h : debug_access_allowed uid = true) :
    s.vmsAlive = (s.vms.filter fun w => w.alive).map WeakRef.target ∧
    (∀ v, v ∈ s.vmsAlive ↔ ∃ w, w ∈ s.vms ∧ w.alive = true ∧ w.target = v) ∧
    debugListVms uid s =
      (.ok (s.vmsAlive.map fun v => ⟨toI32 v.cid, v.config_path⟩), s) := by
  refine ⟨filterMap_upgrade_eq s.vms, ?_, by simp [debugListVms, h]⟩
  intro v
  unfold State.vmsAlive
  rw [List.mem_filterMap]
  constructor
  · rintro ⟨w, hw, hu⟩
    unfold WeakRef.upgrade at hu
    by_cases ha : w.alive = true
    · rw [if_pos ha] at hu
      exact ⟨w, hw, ha, Option.some.inj hu⟩
    · rw [if_neg ha] at hu
      cases hu
  · rintro ⟨w, hw, ha, rfl⟩
    exact ⟨w, hw, by simp [WeakRef.upgrade, ha]⟩

/-- Witness for C5 on a concrete state holding one alive and one destroyed
entry: the snapshot and the debug listing contain only the alive instance. -/
theorem C5_witness :
    State.vmsAlive
        { next_cid := 12, vms := [⟨⟨10, "a"⟩, true⟩, ⟨⟨11, "b"⟩, false⟩],
          debug_held_vms := [] } = [⟨10, "a"⟩] ∧
    (debugListVms 0
        { next_cid := 12, vms := [⟨⟨10, "a"⟩, true⟩, ⟨⟨11, "b"⟩, false⟩],
          debug_held_vms := [] }).1 = .ok [⟨toI32 10, "a"⟩] := by
  have h := C5_snapshot_returns_alive_instances
    { next_cid := 12, vms := [⟨⟨10, "a"⟩, true⟩, ⟨⟨11, "b"⟩, false⟩],
      debug_held_vms := [] } 0 (by decide)
  refine ⟨?_, ?_⟩
  · rw [h.1]
    decide
  · rw [h.2.2]
    simp
    decide

/-- C6: `State::add_vm` first removes every entry whose target is already
destroyed (strong count zero) and then appends the new reference, touching
nothing else of the state; and this insertion point is the only purge — the
three debug operations never change the tracked collection, and `startVm`
either leaves it unchanged (on failure) or changes it exactly through
`add_vm`'s purge-then-append. -/
theorem C6_add_vm_is_the_only_purge (s : State) (w : WeakRef) :
    (s.add_vm w).vms = s.vms.filter WeakRef.strong_count_pos ++ [w] ∧
    (s.add_vm w).next_cid = s.next_cid ∧
    (s.add_vm w).debug_held_vms = s.debug_held_vms ∧
    (∀ uid, ((debugListVms uid s).2).vms = s.vms) ∧
    (∀ uid vm, ((debugHoldVmRef uid vm s).2).vms = s.vms) ∧
    (∀ uid c, ((debugDropVmRef uid c s).2).vms = s.vms) ∧
    (∀ e p, ((startVm e p s).2).vms = s.vms ∨
      ((startVm e p s).2).vms =
        s.vms.filter WeakRef.strong_count_pos ++
          [⟨⟨s.next_cid, p⟩, true⟩]) := by
  refine ⟨rfl, rfl, rfl, ?_, ?_, ?_, ?_⟩
  · intro uid
    by_cases hg : debug_access_allowed uid <;> simp [debugListVms, hg]
  · intro uid vm
    by_cases hg : debug_access_allowed uid <;>
      simp [debugHoldVmRef, State.debug_hold_vm, hg]
  · intro uid c
    by_cases hg : debug_access_allowed uid
    · cases hf : s.debug_held_vms.findIdx? (cidMatches c) <;>
        simp [debugDropVmRef, State.debug_drop_vm, hg, hf]
    · simp [debugDropVmRef, hg]
  · intro e p
    rcases startVm_cases e p s with ⟨err, heq⟩ | ⟨hlt, heq⟩
    · exact Or.inl (by rw [heq])
    · exact Or.inr (by rw [heq])

/-! ### Debug retention store (claim C7) -/

/-- Finding in a list that ends with the first matching element reports the
index of that last position. -/
theorem findIdx?_concat_of_none (p : VirtualMachine → Bool)
    (l : List VirtualMachine) (a : VirtualMachine)
    (hl : ∀ x ∈ l, p x = false) (ha : p a = true) :
    (l ++ [a]).findIdx? p = some l.length := by
  rw [List.findIdx?_append, List.findIdx?_eq_none_iff.mpr hl]
  simp [ha]

/-- Setting the last position of `l ++ [a]` replaces `a`. -/
theorem set_concat_last (l : List VirtualMachine) (a b : VirtualMachine) :
    (l ++ [a]).set l.length b = l ++ [b] := by
  rw [List.set_append_right _ _ (Nat.le_refl _)]
  simp

/-- Swap-removing the final element of a list just drops it. -/
theorem swapRemove_concat (l : List VirtualMachine) (a : VirtualMachine) :
    swapRemove (l ++ [a]) l.length = l := by
  unfold swapRemove
  simp only [List.getLast?_concat, set_concat_last]
  exact List.dropLast_concat

/-- C7: `debug_drop_vm` with an identity that matches no held entry returns
`none` as a non-error result and leaves the store unchanged; after
`debug_hold_vm` of a handle matching identity `c` on a store not otherwise
holding `c`, `debug_drop_vm c` removes that entry and returns the held
handle (restoring the original state), and a second `debug_drop_vm c`
returns `none`. -/
theorem C7_hold_then_drop (s : State) (c : Int) (h : VirtualMachine)
    (hno : ∀ v ∈ s.debug_held_vms, cidMatches c v = false)
    (hc : cidMatches c h = true) :
    s.debug_drop_vm c = (none, s) ∧
    (s.debug_hold_vm h).debug_drop_vm c = (some h, s) ∧
    ((s.debug_hold_vm h).debug_drop_vm c).2.debug_drop_vm c = (none, s) := by
  have hnone : s.debug_held_vms.findIdx? (cidMatches c) = none :=
    List.findIdx?_eq_none_iff.mpr hno
  have hdrop1 : s.debug_drop_vm c = (none, s) := by
    unfold State.debug_drop_vm
    rw [hnone]
  have hheld : (s.debug_hold_vm h).debug_held_vms =
      s.debug_held_vms ++ [h] := rfl
  have hfind : (s.debug_held_vms ++ [h]).findIdx? (cidMatches c) =
      some s.debug_held_vms.length :=
    findIdx?_concat_of_none _ _ _ hno hc
  have hget : (s.debug_held_vms ++ [h])[s.debug_held_vms.length]? = some h := by
    rw [List.getElem?_append_right (Nat.le_refl _)]
    simp
  have hdrop2 : (s.debug_hold_vm h).debug_drop_vm c = (some h, s) := by
    unfold State.debug_drop_vm
    simp only [hheld, hfind, hget, swapRemove_concat]
    rfl
  refine ⟨hdrop1, hdrop2, ?_⟩
  rw [hdrop2]
  exact hdrop1

/-- Witness for C7 on a concrete store holding one non-matching handle. -/
theorem C7_witness :
    State.debug_drop_vm
        { next_cid := 12, vms := [], debug_held_vms := [⟨⟨5, "x"⟩⟩] } 7 =
      (none, { next_cid := 12, vms := [], debug_held_vms := [⟨⟨5, "x"⟩⟩] }) ∧
    (State.debug_hold_vm
        { next_cid := 12, vms := [], debug_held_vms := [⟨⟨5, "x"⟩⟩] }
        ⟨⟨7, "y"⟩⟩).debug_drop_vm 7 =
      (some ⟨⟨7, "y"⟩⟩,
       { next_cid := 12, vms := [], debug_held_vms := [⟨⟨5, "x"⟩⟩] }) := by
  have h := C7_hold_then_drop
    { next_cid := 12, vms := [], debug_held_vms := [⟨⟨5, "x"⟩⟩] } 7
    ⟨⟨7, "y"⟩⟩ (by decide) (by decide)
  exact ⟨h.1, h.2.1⟩

end VirtManager
